import Mathlib

/-
Verification development for the portable-brain repository.

Shallow embedding of the core components that the checked claims are about:
  * the UI state-change classifier and detector
    (portable_brain/common/services/droidrun_tools/droidrun_client.py),
  * the observation tracker's persistence and lifecycle operations
    (portable_brain/monitoring/background_tasks/observation_tracker.py),
  * the memory retriever's two-tier cache
    (portable_brain/memory/main_retriever.py),
  * the observation inferencer's update path
    (portable_brain/monitoring/semantic_filtering/llm_filtering/observations.py),
  * the LLM client's tool-call loop
    (portable_brain/common/services/llm_service/llm_client/google_genai_client.py),
  * the main orchestrator loop
    (portable_brain/agent_service/orchestrator/main_orchestrator.py).

External collaborators (device driver, LLM provider, embedding provider,
database bindings) are modelled as explicit environment records of pure
functions; timestamps are natural numbers; Python floats are modelled as
exact rationals.  Every fallible Python operation is modelled with
Option/Except.
-/

namespace PortableBrain

/-- Python exception kinds that the embedded code can raise. -/
inductive PyError where
  | indexError
  | unboundLocalError
  | validationError
  deriving DecidableEq, Repr

/-! ## UI state data model
DTOs from monitoring/background_tasks/types/ui_states.  The `StateChangeType`
enum's defining module is not under src (only its importers are). -/

/-- Modelled from the spec: the `StateChangeType` enum (its defining module
`types/ui_states/state_change_types.py` is absent from src; importers and the
spec fix the three members APP_SWITCH, CHANGED, NO_CHANGE). -/
inductive StateChangeType where
  | APP_SWITCH
  | CHANGED
  | NO_CHANGE
  deriving DecidableEq, Repr

/-- StateChangeSource enum from types/ui_states/state_changes.py. -/
inductive StateChangeSource where
  | OBSERVATION
  | COMMAND
  deriving DecidableEq, Repr

/-- UIActivity DTO (a single Android activity name). -/
structure UIActivity where
  activity : String
  deriving DecidableEq, Repr

/-- UIState DTO from types/ui_states/ui_state.py.  `ui_elements` entries and
the raw accessibility tree are opaque to all embedded logic, so they are
modelled as strings. -/
structure UIState where
  state_id : String
  package : String
  activity : UIActivity
  ui_elements : List String
  focused_element : Option Int
  formatted_text : String
  raw_tree : Option String
  deriving DecidableEq, Repr

/-- UIStateChange DTO from types/ui_states/state_changes.py. -/
structure UIStateChange where
  timestamp : Nat
  change_type : StateChangeType
  before : UIState
  after : UIState
  source : StateChangeSource
  description : Option String
  deriving DecidableEq, Repr

/-- DroidRunClient._classify_change: app switch when the packages differ,
NO_CHANGE when package, activity and focused element all coincide, CHANGED
otherwise. -/
def classify_change (before after : UIState) : StateChangeType :=
  let before_pkg := before.package
  let after_pkg := after.package
  if before_pkg ≠ after_pkg then
    StateChangeType.APP_SWITCH
  else if before_pkg = after_pkg ∧ before.activity = after.activity ∧
      before.focused_element = after.focused_element then
    StateChangeType.NO_CHANGE
  else
    StateChangeType.CHANGED

/-- Result of one `detect_state_change` call: the client's updated
`last_state` field together with the optionally returned change event. -/
structure DetectResult where
  last_state : Option UIState
  change : Option UIStateChange
  deriving DecidableEq, Repr

/-- DroidRunClient.detect_state_change, as a function of the client's
`last_state` field and the freshly fetched current state.  With no previous
state it records the current state and returns None; a NO_CHANGE
classification returns None without touching `last_state`; otherwise the
change event is built and `last_state` is advanced. -/
def detect_state_change (last_state : Option UIState) (current_state : UIState)
    (now : Nat) : DetectResult :=
  match last_state with
  | none => ⟨some current_state, none⟩
  | some last =>
    let change_type := classify_change last current_state
    if change_type = StateChangeType.NO_CHANGE then
      ⟨some last, none⟩
    else
      ⟨some current_state,
        some { timestamp := now
               change_type := change_type
               before := last
               after := current_state
               source := StateChangeSource.OBSERVATION
               description := none }⟩

/-- Bounded-deque append: `collections.deque(maxlen=n).append`, dropping from
the left when full. -/
def appendMax {α : Type} (maxlen : Nat) (xs : List α) (x : α) : List α :=
  let ys := xs ++ [x]
  if maxlen < ys.length then ys.drop (ys.length - maxlen) else ys

/-- One polling step of ObservationTracker.start_tracking restricted to change
detection: the client's `last_state` and the tracker's `recent_state_changes`
deque (maxlen 10).  The change is appended only when `detect_state_change`
returned one. -/
def track_change_step (last_state : Option UIState)
    (recent_state_changes : List UIStateChange) (current_state : UIState)
    (now : Nat) : Option UIState × List UIStateChange :=
  let r := detect_state_change last_state current_state now
  match r.change with
  | some change => (r.last_state, appendMax 10 recent_state_changes change)
  | none => (r.last_state, recent_state_changes)

/-! ## Observation data model
DTOs from monitoring/background_tasks/types/observation/observations.py.
Python `datetime` is a Nat timestamp, `float` is an exact rational.
The `edge` fields are annotated `str` in the source's pydantic classes
(pydantic v2 — the repo's settings use SettingsConfigDict), so they are
required strings here, and constructing an observation with `edge=None` —
as the inferencer does — is modelled as a pydantic ValidationError via the
checked constructor below. -/

/-- MemoryType enum from observations.py. -/
inductive MemoryType where
  | long_term_people
  | long_term_preferences
  | short_term_preferences
  | short_term_content
  | current_session
  deriving DecidableEq, Repr

/-- LongTermPeopleObservation DTO. -/
structure LongTermPeopleObservation where
  id : String
  importance : ℚ
  created_at : Nat
  target_id : String
  edge : String
  node : String
  primary_communication_channel : String
  deriving DecidableEq, Repr

/-- ShortTermPreferencesObservation DTO. -/
structure ShortTermPreferencesObservation where
  id : String
  importance : ℚ
  created_at : Nat
  source_id : String
  edge : String
  node : String
  recurrence : Int
  deriving DecidableEq, Repr

/-- LongTermPreferencesObservation DTO. -/
structure LongTermPreferencesObservation where
  id : String
  importance : ℚ
  created_at : Nat
  source_id : String
  edge : String
  node : String
  recurrence : Int
  deriving DecidableEq, Repr

/-- ShortTermContentObservation DTO. -/
structure ShortTermContentObservation where
  id : String
  importance : ℚ
  created_at : Nat
  source_id : String
  content_id : String
  node : String
  deriving DecidableEq, Repr

/-- The `Observation` tagged union from observations.py. -/
inductive Observation where
  | longTermPeople (o : LongTermPeopleObservation)
  | longTermPreferences (o : LongTermPreferencesObservation)
  | shortTermPreferences (o : ShortTermPreferencesObservation)
  | shortTermContent (o : ShortTermContentObservation)
  deriving DecidableEq, Repr

/-- The `memory_type` discriminator carried by each variant. -/
def Observation.memory_type : Observation → MemoryType
  | .longTermPeople _ => MemoryType.long_term_people
  | .longTermPreferences _ => MemoryType.long_term_preferences
  | .shortTermPreferences _ => MemoryType.short_term_preferences
  | .shortTermContent _ => MemoryType.short_term_content

/-- The `id` field shared by every Observation variant. -/
def Observation.id : Observation → String
  | .longTermPeople o => o.id
  | .longTermPreferences o => o.id
  | .shortTermPreferences o => o.id
  | .shortTermContent o => o.id

/-- The `node` field shared by every Observation variant. -/
def Observation.node : Observation → String
  | .longTermPeople o => o.node
  | .longTermPreferences o => o.node
  | .shortTermPreferences o => o.node
  | .shortTermContent o => o.node

/-! ## Observation inferencer (C9)
monitoring/semantic_filtering/llm_filtering/observations.py. -/

/-- UpdatedObservationLLMResponse schema from
llm_response_types/observation_responses.py. -/
structure UpdatedObservationLLMResponse where
  updated_observation_node : Option String
  is_updated : Bool
  reasoning : String
  deriving DecidableEq, Repr

/-- Python truthiness of an `Optional[str]` value: `None` and the empty
string are falsy (`if not updated_observation_node`). -/
def pyStrFalsy : Option String → Bool
  | none => true
  | some s => s.isEmpty

/-- Pydantic construction of a ShortTermPreferencesObservation with the
keyword arguments the inferencer passes.  The class declares the required
field `edge: str`, and pydantic v2 does not coerce None into a str, so an
`edge=None` argument raises a ValidationError instead of building the
model. -/
def ShortTermPreferencesObservation.model_validate (id : String)
    (created_at : Nat) (source_id : String) (edge : Option String)
    (node : String) (recurrence : Int) (importance : ℚ) :
    Except PyError ShortTermPreferencesObservation :=
  match edge with
  | none => Except.error PyError.validationError
  | some edge_value =>
    Except.ok
      { id := id
        importance := importance
        created_at := created_at
        source_id := source_id
        edge := edge_value
        node := node
        recurrence := recurrence }

/-- ObservationInferencer.update_observation, as a function of the parsed
LLM response (the `acreate` call is the environment), the freshly minted
uuid and the current time.  The source guards only with
`if not updated_observation_node`; the response's `is_updated` flag is
never read.  On a truthy node it calls
`ShortTermPreferencesObservation(id=..., created_at=..., source_id=
"test_source_id", edge=None, node=..., recurrence=1, importance=1.0)`,
which raises a pydantic ValidationError (required `edge: str` given None),
so this path never returns an observation. -/
def update_observation (resp : UpdatedObservationLLMResponse)
    (fresh_uuid : String) (now : Nat) : Except PyError (Option Observation) :=
  let updated_observation_node := resp.updated_observation_node
  if pyStrFalsy updated_observation_node then
    Except.ok none
  else
    match ShortTermPreferencesObservation.model_validate fresh_uuid now
        "test_source_id" none (updated_observation_node.getD "") 1 1 with
    | Except.error e => Except.error e
    | Except.ok updated_observation =>
      Except.ok (some (Observation.shortTermPreferences updated_observation))

/-! ## Observation tracker state and persistence (C2, C3)
monitoring/background_tasks/observation_tracker.py. -/

/-- Base fields common to every Action variant
(types/action/action_bases.py); the variant payloads are irrelevant to the
checked claims, so only the shared fields are modelled. -/
structure Action where
  timestamp : Nat
  source_change_type : StateChangeType
  source : StateChangeSource
  importance : ℚ
  description : Option String
  deriving DecidableEq, Repr

/-- The ObservationTracker's in-process mutable state: the three bounded
deques (front = oldest), the action counter, the `running` flag and the
background task handle (modelled by its presence). -/
structure TrackerState where
  inferred_actions : List Action
  observations : List Observation
  recent_state_changes : List UIStateChange
  action_counter : Nat
  running : Bool
  tracking_task : Option Unit
  deriving DecidableEq, Repr

/-- A single embed-and-persist of an evicted observation to the vector
store: EmbeddingGenerator.generate_and_save_embedding(observation_id,
observation_text). -/
structure PersistEvent where
  observation_id : String
  observation_text : String
  deriving DecidableEq, Repr

/-- ObservationTracker._save_observation.  The source reads
`old_observation = self.observations[-1]` unconditionally, which raises
IndexError on an empty deque; once the indexing succeeded the guard
`if old_observation:` always passes (a pydantic model instance is truthy),
so the tail is embedded and persisted exactly once and the new observation
is appended (deque maxlen 20).  The structured-store write is commented out
in the source, so the only persistence is the vector-store embedding row. -/
def save_observation (s : TrackerState) (new_observation : Observation) :
    Except PyError (TrackerState × List PersistEvent) :=
  match s.observations.getLast? with
  | none => Except.error PyError.indexError
  | some old_observation =>
    Except.ok
      ({ s with observations := appendMax 20 s.observations new_observation },
       [{ observation_id := old_observation.id
          observation_text := old_observation.node }])

/-- ObservationTracker.stop_tracking.  Sets `running = False`, awaits the
loop task with a 5-second timeout and force-cancels it on timeout (a purely
temporal step whose state effect is clearing the task reference), and
returns.  It performs no flush and touches none of the deques; the returned
event list records the persistence it performs (none). -/
def stop_tracking (s : TrackerState) : TrackerState × List PersistEvent :=
  ({ s with running := false, tracking_task := none }, [])

/-! ## Memory retriever (C5, C6, C8)
memory/main_retriever.py.  Embedding vectors are lists of exact rationals;
the embedding provider and the database CRUD helpers are an explicit
environment of pure functions. -/

/-- Dot product of two vectors, `np.dot` (zip semantics suffice: all vectors
produced by one embedding client share a dimension). -/
def dotProduct (a b : List ℚ) : ℚ :=
  (List.zipWith (fun x y => x * y) a b).sum

/-- Squared Euclidean norm of a vector, `np.linalg.norm(v) ** 2`. -/
def normSq (a : List ℚ) : ℚ :=
  dotProduct a a

/-- MemoryRetriever._cosine_similarity_threshold (0.70). -/
def cosine_similarity_threshold : ℚ := 7 / 10

/-- Exact decision of `MemoryRetriever._cosine_similarity(a, b) >= t` for a
positive threshold t.  The source computes the float
`dot(a,b) / (norm(a) * norm(b))`, with similarity 0.0 when either norm is
zero; for t > 0 the comparison `dot/(|a||b|) >= t` is equivalent to
`dot >= 0 and dot^2 >= t^2 * |a|^2 * |b|^2`, which is decidable over ℚ
without square roots (theorem cosine_similarity_ge_iff_real below proves
this equivalence against the real-valued quotient). -/
def cosine_similarity_ge (a b : List ℚ) (t : ℚ) : Bool :=
  if normSq a = 0 ∨ normSq b = 0 then
    decide ((0 : ℚ) ≥ t)
  else
    decide ((0 : ℚ) ≤ dotProduct a b) &&
      decide (t ^ 2 * (normSq a * normSq b) ≤ dotProduct a b ^ 2)

/-- The retriever's caches: `_exact_cache` is an OrderedDict modelled as an
association list (front = least recently used, back = most recently used);
`_semantic_cache` is a deque of (query_vector, results) pairs (front =
oldest, back = newest, maxlen 10). -/
structure RetrieverState where
  exactCache : List (String × List String)
  semanticCache : List (List ℚ × List String)
  deriving DecidableEq, Repr

/-- `query in self._exact_cache` followed by `self._exact_cache[query]`:
first entry with the given key. -/
def exactCacheGet (c : List (String × List String)) (k : String) :
    Option (List String) :=
  (c.find? (fun e => e.1 == k)).map (fun e => e.2)

/-- `OrderedDict.move_to_end(k)`: the entry for k is moved to the
most-recently-used end; other entries keep their order. -/
def moveToEnd (c : List (String × List String)) (k : String) :
    List (String × List String) :=
  match c.find? (fun e => e.1 == k) with
  | some e => c.filter (fun e2 => e2.1 != k) ++ [e]
  | none => c

/-- MemoryRetriever._exact_cache_max (50). -/
def exact_cache_max : Nat := 50

/-- MemoryRetriever._set_exact_cache: move an existing entry to the MRU end
and overwrite its value (or insert a fresh entry at the MRU end), then evict
the LRU entry if over capacity (`popitem(last=False)`). -/
def set_exact_cache (c : List (String × List String)) (k : String)
    (v : List String) : List (String × List String) :=
  let c1 := c.filter (fun e => e.1 != k) ++ [(k, v)]
  if exact_cache_max < c1.length then c1.drop 1 else c1

/-- MemoryRetriever._find_semantic_cache_hit: scan the deque newest-first
(`reversed`), returning the cached results of the first entry whose vector
clears the cosine-similarity threshold, or None. -/
def find_semantic_cache_hit (semanticCache : List (List ℚ × List String))
    (query_vector : List ℚ) : Option (List String) :=
  (semanticCache.reverse.find?
      (fun e => cosine_similarity_ge query_vector e.1 cosine_similarity_threshold)).map
    (fun e => e.2)

/-- One call to the embedding provider:
`aembed_text(text=[query], task_type=...)`, recording the text and the
task type passed (none when the call site omits `task_type`). -/
structure EmbedCall where
  text : String
  task_type : Option String
  deriving DecidableEq, Repr

/-- The external collaborators of the retriever: the embedding provider
(returning the list of vectors, empty on failure) and the two vector-store
CRUD reads.  `find_similar_texts` takes the query vector, the limit and the
distance metric; `find_similar_relationships` returns (person row id,
cosine distance) pairs. -/
structure RetrieverEnv where
  embed : String → Option String → List (List ℚ)
  find_similar_texts : List ℚ → Nat → String → List String
  find_similar_relationships : List ℚ → Nat → List (String × ℚ)

/-- Calls issued to external collaborators during one retriever method call:
the embedding calls made and the number of vector-store queries. -/
structure RetrieverCalls where
  embedCalls : List EmbedCall
  dbCalls : Nat
  deriving DecidableEq, Repr

/-- Outcome of one `find_semantically_similar` call: the returned list of
observation texts, the updated cache state, and the external calls made. -/
structure FssOutcome where
  results : List String
  state : RetrieverState
  calls : RetrieverCalls
  deriving DecidableEq, Repr

/-- MemoryRetriever.find_semantically_similar.  `disable_cache=True` skips
the cache logic entirely.  Otherwise: (1) an exact-cache hit is promoted to
MRU and returned with no external calls; (2) on miss the query is embedded
with task type RETRIEVAL_QUERY (empty vector list from the provider returns
[] with a warning); (3) a semantic-cache hit — guarded by the Python
truthiness test `if semantic_cache_result:`, so an empty cached results
list falls through — is promoted into the exact cache and returned without
querying the store; (4) on a full miss the store is queried and both caches
are populated. -/
def find_semantically_similar (env : RetrieverEnv) (s : RetrieverState)
    (query : String) (limit : Nat) (distance_metric : String)
    (disable_cache : Bool) : FssOutcome :=
  if disable_cache then
    match env.embed query (some "RETRIEVAL_QUERY") with
    | [] => ⟨[], s, ⟨[⟨query, some "RETRIEVAL_QUERY"⟩], 0⟩⟩
    | query_vector :: _ =>
      ⟨env.find_similar_texts query_vector limit distance_metric, s,
        ⟨[⟨query, some "RETRIEVAL_QUERY"⟩], 1⟩⟩
  else
    match exactCacheGet s.exactCache query with
    | some cached =>
      ⟨cached, { s with exactCache := moveToEnd s.exactCache query }, ⟨[], 0⟩⟩
    | none =>
      match env.embed query (some "RETRIEVAL_QUERY") with
      | [] => ⟨[], s, ⟨[⟨query, some "RETRIEVAL_QUERY"⟩], 0⟩⟩
      | query_vector :: _ =>
        let semantic_cache_result := find_semantic_cache_hit s.semanticCache query_vector
        match semantic_cache_result with
        | some cached_results =>
          if cached_results.isEmpty then
            let results := env.find_similar_texts query_vector limit distance_metric
            ⟨results,
              ⟨set_exact_cache s.exactCache query results,
                appendMax 10 s.semanticCache (query_vector, results)⟩,
              ⟨[⟨query, some "RETRIEVAL_QUERY"⟩], 1⟩⟩
          else
            ⟨cached_results,
              { s with exactCache := set_exact_cache s.exactCache query cached_results },
              ⟨[⟨query, some "RETRIEVAL_QUERY"⟩], 0⟩⟩
        | none =>
          let results := env.find_similar_texts query_vector limit distance_metric
          ⟨results,
            ⟨set_exact_cache s.exactCache query results,
              appendMax 10 s.semanticCache (query_vector, results)⟩,
            ⟨[⟨query, some "RETRIEVAL_QUERY"⟩], 1⟩⟩

/-- MemoryRetriever.find_similar_person_relationships.  The query is
embedded with no task-type override; the source indexes `query_vectors[0]`
with no emptiness guard, so an embedding failure raises IndexError. -/
def find_similar_person_relationships (env : RetrieverEnv) (query : String)
    (limit : Nat) : Except PyError (List (String × ℚ) × RetrieverCalls) :=
  match env.embed query none with
  | [] => Except.error PyError.indexError
  | query_vector :: _ =>
    Except.ok (env.find_similar_relationships query_vector limit,
      ⟨[⟨query, none⟩], 1⟩)

/-! ## LLM client tool-call loop (C7)
common/services/llm_service/llm_client/google_genai_client.py,
AsyncGenAITypedClient.atool_call. -/

/-- Errors raised by the tool-call loop: the RuntimeError on exhausting
`max_turns` without a final text response, and the ValueError on an unknown
tool name. -/
inductive AgentError where
  | maxTurnsExhausted
  | unknownTool (name : String)
  deriving DecidableEq, Repr

/-- What the model returns on one turn: a final text part, or a function
call (name, serialized args). -/
inductive ModelResponse where
  | text (t : String)
  | functionCall (name : String) (args : String)
  deriving DecidableEq, Repr

/-- The environment of one `atool_call` invocation: the model's response as
a function of the turn index (the growing conversation — including every
tool result, which the source feeds back to the model and never branches on
itself — is abstracted by that index), the keys of the `tool_executors`
dict, and the optional `response_model` validation
(`model_validate_json` after fence stripping; none on failure). -/
structure ToolCallEnv (α : Type) where
  model : Nat → ModelResponse
  executorNames : List String
  parseResponse : Option (String → Option α)

/-- The turn loop of `atool_call`, counting down the remaining turns.  Text
ends the loop (validated to a structured value when a response model is
given, falling back to the raw text with a warning on validation failure);
a known tool call consumes a turn; an unknown tool raises; running out of
turns raises the RuntimeError. -/
def atool_call_loop {α : Type} (env : ToolCallEnv α) (turn : Nat) :
    Nat → Except AgentError (α ⊕ String)
  | 0 => Except.error AgentError.maxTurnsExhausted
  | fuel + 1 =>
    match env.model turn with
    | ModelResponse.text t =>
      match env.parseResponse with
      | some parse =>
        match parse t with
        | some v => Except.ok (Sum.inl v)
        | none => Except.ok (Sum.inr t)
      | none => Except.ok (Sum.inr t)
    | ModelResponse.functionCall name _ =>
      if env.executorNames.contains name then
        atool_call_loop env (turn + 1) fuel
      else
        Except.error (AgentError.unknownTool name)

/-- AsyncGenAITypedClient.atool_call: run the turn loop from turn 0 with a
budget of `max_turns` turns. -/
def atool_call {α : Type} (env : ToolCallEnv α) (max_turns : Nat) :
    Except AgentError (α ⊕ String) :=
  atool_call_loop env 0 max_turns

/-! ## Orchestrator (C1, C7, C10)
agent_service/orchestrator/main_orchestrator.py.  The two agents are
abstracted as oracles indexed by their own invocation count: each agent call
either raises an AgentError or returns its `atool_call` result — a parsed
structured output or the raw text fallback. -/

/-- RetrievalLogEntry schema (memory_retrieval_outputs.py); the `params`
dict is opaque to the orchestrator and modelled as a string. -/
structure RetrievalLogEntry where
  tool : String
  params : String
  result_summary : String
  deriving DecidableEq, Repr

/-- Modelled from the spec: the MemoryRetrievalLLMOutput structured output
(the orchestrator and retrieval agent import this name from
memory_retrieval_outputs.py, which defines the identical-shaped
`MemoryRetrievalOutput`; the spec's structured-outputs section fixes the
fields). -/
structure MemoryRetrievalLLMOutput where
  context_summary : String
  inferred_intent : String
  reasoning : String
  unresolved : List String
  retrieval_log : List RetrievalLogEntry
  deriving DecidableEq, Repr

/-- Modelled from the spec: the ExecutionLLMOutput structured output (its
defining module `llm_outputs/execution_outputs.py` is absent from src; the
spec's structured-outputs section and the construction site in
`MainOrchestrator._parse_execution` fix the fields). -/
structure ExecutionLLMOutput where
  success : Bool
  result_summary : String
  failure_reason : Option String
  missing_information : Option String
  deriving DecidableEq, Repr

/-- RetrievalState schema (orchestration_state.py). -/
structure RetrievalState where
  iteration : Nat
  previous_queries : List RetrievalLogEntry
  execution_failure_reason : String
  missing_information : String
  deriving DecidableEq, Repr

/-- Stand-in for pydantic `RetrievalState.model_dump_json`; the checked
claims do not depend on the rendering, only on it being a function of the
state. -/
def render_retrieval_state (rs : RetrievalState) : String :=
  "iteration=" ++ toString rs.iteration ++
    ";previous_queries=" ++ toString rs.previous_queries.length ++
    ";execution_failure_reason=" ++ rs.execution_failure_reason ++
    ";missing_information=" ++ rs.missing_information

/-- MainOrchestrator._parse_retrieval: a structured output passes through,
raw text yields None (with a warning). -/
def parse_retrieval (raw : MemoryRetrievalLLMOutput ⊕ String) :
    Option MemoryRetrievalLLMOutput :=
  match raw with
  | Sum.inl o => some o
  | Sum.inr _ => none

/-- MainOrchestrator._parse_execution: a structured output passes through,
raw text is wrapped as a failed result. -/
def parse_execution (raw : ExecutionLLMOutput ⊕ String) : ExecutionLLMOutput :=
  match raw with
  | Sum.inl o => o
  | Sum.inr text =>
    { success := false
      result_summary := text
      failure_reason := some "Execution agent returned unstructured response"
      missing_information := none }

/-- The orchestrator's two collaborators.  `retrieve n prompt` is the n-th
invocation of RetrievalAgent.test_retrieve (0-indexed); `execute n req ctx`
is the n-th invocation of ExecutionAgent.execute_command.  Each either
raises or returns the agent's `atool_call` result. -/
structure OrchestratorEnv where
  retrieve : Nat → String → Except AgentError (MemoryRetrievalLLMOutput ⊕ String)
  execute : Nat → String → String → Except AgentError (ExecutionLLMOutput ⊕ String)

/-- How many times each agent was invoked during one `run`. -/
structure OrchestratorCounts where
  executionCalls : Nat
  retrievalCalls : Nat
  deriving DecidableEq, Repr

/-- How MainOrchestrator.run terminates: a returned ExecutionLLMOutput, a
propagated agent error (there is no try/except in `run`), or Python's
UnboundLocalError at the final `return execution_result` when the loop body
never ran. -/
inductive RunError where
  | agentError (e : AgentError)
  | unboundLocalError
  deriving DecidableEq, Repr

/-- The `for iteration in range(max_iterations)` loop of
MainOrchestrator.run.  `fuel` is the number of remaining iterations,
`iteration` the Python loop variable, `execution_result` the Python local
of the same name (None while unassigned).  Each iteration executes with the
current context, returns on success, and otherwise builds the retrieval
state and re-retrieves — also on the final iteration.  When the loop ends
the last execution result is returned; if the loop body never ran, the
final `return execution_result` raises UnboundLocalError. -/
def orchestrator_run_loop (env : OrchestratorEnv) (user_request : String)
    (iteration : Nat) (all_previous_queries : List RetrievalLogEntry)
    (context : String) (execution_result : Option ExecutionLLMOutput)
    (counts : OrchestratorCounts) :
    Nat → Except RunError ExecutionLLMOutput × OrchestratorCounts
  | 0 =>
    match execution_result with
    | some r => (Except.ok r, counts)
    | none => (Except.error RunError.unboundLocalError, counts)
  | fuel + 1 =>
    match env.execute counts.executionCalls user_request context with
    | Except.error e =>
      (Except.error (RunError.agentError e),
        { counts with executionCalls := counts.executionCalls + 1 })
    | Except.ok execution_raw =>
      let counts1 : OrchestratorCounts :=
        { counts with executionCalls := counts.executionCalls + 1 }
      let execution_result1 := parse_execution execution_raw
      if execution_result1.success then
        (Except.ok execution_result1, counts1)
      else
        let retrieval_state : RetrievalState :=
          { iteration := iteration + 1
            previous_queries := all_previous_queries
            execution_failure_reason :=
              execution_result1.failure_reason.getD "Unknown failure"
            missing_information :=
              execution_result1.missing_information.getD "Unknown" }
        let re_retrieval_prompt :=
          user_request ++ "\n\nretrieval_state:\n" ++
            render_retrieval_state retrieval_state
        match env.retrieve counts1.retrievalCalls re_retrieval_prompt with
        | Except.error e =>
          (Except.error (RunError.agentError e),
            { counts1 with retrievalCalls := counts1.retrievalCalls + 1 })
        | Except.ok retrieval_raw =>
          let counts2 : OrchestratorCounts :=
            { counts1 with retrievalCalls := counts1.retrievalCalls + 1 }
          match retrieval_raw with
          | Sum.inl retrieval_result =>
            orchestrator_run_loop env user_request (iteration + 1)
              (all_previous_queries ++ retrieval_result.retrieval_log)
              retrieval_result.context_summary (some execution_result1) counts2
              fuel
          | Sum.inr raw_text =>
            orchestrator_run_loop env user_request (iteration + 1)
              all_previous_queries raw_text (some execution_result1) counts2
              fuel

/-- MainOrchestrator.run: one initial retrieval seeds the context (the raw
text itself when parsing failed), then the bounded execute / re-retrieve
loop runs for `max_iterations` iterations. -/
def orchestrator_run (env : OrchestratorEnv) (user_request : String)
    (max_iterations : Nat) :
    Except RunError ExecutionLLMOutput × OrchestratorCounts :=
  match env.retrieve 0 user_request with
  | Except.error e =>
    (Except.error (RunError.agentError e), ⟨0, 1⟩)
  | Except.ok retrieval_raw =>
    match retrieval_raw with
    | Sum.inl retrieval_result =>
      orchestrator_run_loop env user_request 0 retrieval_result.retrieval_log
        retrieval_result.context_summary none ⟨0, 1⟩ max_iterations
    | Sum.inr raw_text =>
      orchestrator_run_loop env user_request 0 [] raw_text none ⟨0, 1⟩
        max_iterations

/-! ## Concrete fixtures used by witnesses and counterexamples -/

/-- An Instagram home-screen UI state. -/
def uiStateA : UIState :=
  { state_id := "s1"
    package := "com.instagram.android"
    activity := { activity := "MainActivity" }
    ui_elements := []
    focused_element := some 0
    formatted_text := "home feed"
    raw_tree := none }

/-- A WhatsApp chat-list UI state (different package than uiStateA). -/
def uiStateB : UIState :=
  { state_id := "s2"
    package := "com.whatsapp"
    activity := { activity := "ChatActivity" }
    ui_elements := []
    focused_element := none
    formatted_text := "chat list"
    raw_tree := none }

/-- An Instagram DM UI state (same package as uiStateA, different
activity). -/
def uiStateC : UIState :=
  { state_id := "s3"
    package := "com.instagram.android"
    activity := { activity := "DirectActivity" }
    ui_elements := []
    focused_element := some 0
    formatted_text := "dm thread"
    raw_tree := none }

/-- A first concrete observation. -/
def observationOne : Observation :=
  Observation.shortTermPreferences
    { id := "obs-1"
      importance := 1
      created_at := 10
      source_id := "com.instagram.android"
      edge := "engages_with"
      node := "user browses fitness reels"
      recurrence := 1 }

/-- A second concrete observation. -/
def observationTwo : Observation :=
  Observation.shortTermPreferences
    { id := "obs-2"
      importance := 1
      created_at := 20
      source_id := "com.instagram.android"
      edge := "communicates_via"
      node := "user messages sarah on instagram"
      recurrence := 1 }

/-- A freshly started tracker with all deques empty. -/
def emptyTrackerState : TrackerState :=
  { inferred_actions := []
    observations := []
    recent_state_changes := []
    action_counter := 0
    running := true
    tracking_task := some () }

/-- A running tracker holding exactly one observation. -/
def oneObsTrackerState : TrackerState :=
  { emptyTrackerState with observations := [observationOne] }

/-! ## C4: state-change classification and NO_CHANGE suppression -/

/-- C4: for every pair of UIStates the classifier is deterministic —
different packages give APP_SWITCH; equal package, activity and focused
element give NO_CHANGE; same package with any other difference gives
CHANGED — and a NO_CHANGE classification makes detect_state_change return
None, so the polling step appends nothing to the changes deque. -/
theorem classify_change_cases_and_no_change_suppressed
    (before after : UIState) :
    (before.package ≠ after.package →
      classify_change before after = StateChangeType.APP_SWITCH) ∧
    (before.package = after.package ∧ before.activity = after.activity ∧
        before.focused_element = after.focused_element →
      classify_change before after = StateChangeType.NO_CHANGE) ∧
    (before.package = after.package ∧
        ¬(before.activity = after.activity ∧
          before.focused_element = after.focused_element) →
      classify_change before after = StateChangeType.CHANGED) ∧
    (∀ (changes : List UIStateChange) (now : Nat),
      classify_change before after = StateChangeType.NO_CHANGE →
      (detect_state_change (some before) after now).change = none ∧
      track_change_step (some before) changes after now = (some before, changes)) := by
  refine ⟨?_, ?_, ?_, ?_⟩
  · intro h
    simp only [classify_change]
    rw [if_pos h]
  · rintro ⟨h1, h2, h3⟩
    simp only [classify_change]
    rw [if_neg (by simp [h1]), if_pos ⟨h1, h2, h3⟩]
  · rintro ⟨h1, h2⟩
    simp only [classify_change]
    rw [if_neg (by simp [h1]), if_neg (by tauto)]
  · intro changes now hnc
    refine ⟨?_, ?_⟩
    · simp [detect_state_change, hnc]
    · simp [track_change_step, detect_state_change, hnc]

/-- C4 witness: the three classifier cases and the NO_CHANGE suppression at
concrete UI states. -/
theorem classify_change_cases_witness :
    classify_change uiStateA uiStateB = StateChangeType.APP_SWITCH ∧
    classify_change uiStateA uiStateA = StateChangeType.NO_CHANGE ∧
    classify_change uiStateA uiStateC = StateChangeType.CHANGED ∧
    (detect_state_change (some uiStateA) uiStateA 5).change = none ∧
    track_change_step (some uiStateA) [] uiStateA 5 = (some uiStateA, []) := by
  refine ⟨?_, ?_, ?_, ?_, ?_⟩
  · exact (classify_change_cases_and_no_change_suppressed uiStateA uiStateB).1
      (by decide)
  · exact (classify_change_cases_and_no_change_suppressed uiStateA uiStateA).2.1
      ⟨rfl, rfl, rfl⟩
  · exact (classify_change_cases_and_no_change_suppressed uiStateA uiStateC).2.2.1
      ⟨rfl, by decide⟩
  · exact ((classify_change_cases_and_no_change_suppressed uiStateA uiStateA).2.2.2
      [] 5 ((classify_change_cases_and_no_change_suppressed uiStateA uiStateA).2.1
        ⟨rfl, rfl, rfl⟩)).1
  · exact ((classify_change_cases_and_no_change_suppressed uiStateA uiStateA).2.2.2
      [] 5 ((classify_change_cases_and_no_change_suppressed uiStateA uiStateA).2.1
        ⟨rfl, rfl, rfl⟩)).2

/-! ## C9: update_observation, the is_updated flag and edge validation -/

/-- C9 counterexample: against the claimed None-conditions, a response with
the non-null empty-string node and is_updated = true returns None, and a
response with a non-empty node — is_updated false and true alike — raises
a pydantic ValidationError at the ShortTermPreferencesObservation(edge=None)
construction instead of returning None or an updated observation. -/
theorem update_observation_empty_node_and_validation_error :
    update_observation
      { updated_observation_node := some ""
        is_updated := true
        reasoning := "no change" } "uuid-0" 0 = Except.ok none ∧
    update_observation
      { updated_observation_node := some "user is messaging on slack"
        is_updated := false
        reasoning := "pattern continues" } "uuid-1" 0 =
      Except.error PyError.validationError ∧
    update_observation
      { updated_observation_node := some "user is messaging on slack"
        is_updated := true
        reasoning := "pattern continues" } "uuid-2" 0 =
      Except.error PyError.validationError := by
  refine ⟨rfl, rfl, rfl⟩

/-- C9 amended: update_observation returns None exactly when the response's
updated_observation_node is null or the empty string (Python truthiness of
`if not updated_observation_node`); the is_updated flag is never read, so
flipping it cannot change the result; and a truthy node yields no
observation either — the ShortTermPreferencesObservation(edge=None)
construction raises a pydantic ValidationError against the required
`edge: str` field, so every call returns None or that error. -/
theorem update_observation_none_iff_falsy_node
    (resp : UpdatedObservationLLMResponse) (fresh_uuid : String) (now : Nat) :
    (update_observation resp fresh_uuid now = Except.ok none ↔
      resp.updated_observation_node = none ∨
        resp.updated_observation_node = some "") ∧
    (update_observation resp fresh_uuid now = Except.ok none ∨
      update_observation resp fresh_uuid now =
        Except.error PyError.validationError) ∧
    (∀ b : Bool,
      update_observation { resp with is_updated := b } fresh_uuid now =
        update_observation resp fresh_uuid now) := by
  obtain ⟨node, isu, reasoning⟩ := resp
  refine ⟨?_, ?_, fun b => rfl⟩
  · cases node with
    | none => simp [update_observation, pyStrFalsy]
    | some s =>
      by_cases hs : s.isEmpty
      · have hs' : s = "" := (String.isEmpty_iff s).mp hs
        subst hs'
        simp [update_observation, pyStrFalsy, hs]
      · have hs2 : s.isEmpty = false := by simpa using hs
        have hs' : s ≠ "" := fun h => hs ((String.isEmpty_iff s).mpr h)
        simp [update_observation, pyStrFalsy,
          ShortTermPreferencesObservation.model_validate, hs2, hs']
  · cases node with
    | none => left; rfl
    | some s =>
      by_cases hs : s.isEmpty
      · left
        simp [update_observation, pyStrFalsy, hs]
      · right
        have hs2 : s.isEmpty = false := by simpa using hs
        simp [update_observation, pyStrFalsy,
          ShortTermPreferencesObservation.model_validate, hs2]

/-! ## C2: save_and_rotate on an empty observations deque -/

/-- C2: evaluation of _save_observation at the failing input and at a
well-formed input.  On an empty observations deque the unguarded
`self.observations[-1]` raises IndexError — the new observation is never
appended — while on a non-empty deque the tail is embedded and persisted
exactly once and the new observation is appended. -/
theorem save_observation_empty_deque_raises :
    save_observation emptyTrackerState observationTwo =
      Except.error PyError.indexError ∧
    save_observation oneObsTrackerState observationTwo =
      Except.ok
        ({ oneObsTrackerState with
            observations := [observationOne, observationTwo] },
         [{ observation_id := "obs-1"
            observation_text := "user browses fitness reels" }]) := by
  constructor
  · rfl
  · rfl

/-! ## C3: stop_tracking neither flushes nor clears -/

/-- C3 counterexample: stopping a tracker that holds an observation leaves
the observations deque non-empty and persists nothing, contradicting the
claimed flush-and-clear. -/
theorem stop_tracking_does_not_clear_concrete :
    (stop_tracking oneObsTrackerState).1.observations ≠ [] ∧
    (stop_tracking oneObsTrackerState).2 = [] := by
  decide

/-- C3 amended: stop_tracking sets running to false and clears the task
reference (after the 5-second graceful await and forced cancel of the loop
task), but flushes no observation and leaves every deque exactly as it
was. -/
theorem stop_tracking_state_effect (s : TrackerState) :
    (stop_tracking s).1.running = false ∧
    (stop_tracking s).1.tracking_task = none ∧
    (stop_tracking s).1.observations = s.observations ∧
    (stop_tracking s).1.inferred_actions = s.inferred_actions ∧
    (stop_tracking s).1.recent_state_changes = s.recent_state_changes ∧
    (stop_tracking s).1.action_counter = s.action_counter ∧
    (stop_tracking s).2 = [] := by
  simp [stop_tracking]

/-! ## Orchestrator call-count bounds (C1, C7, C10) -/

/-- Helper: the orchestration loop adds at most `fuel` execution-agent calls
and at most `fuel` retrieval-agent calls to the running counts. -/
theorem orchestrator_run_loop_counts_le (env : OrchestratorEnv)
    (user_request : String) :
    ∀ (fuel iteration : Nat) (q : List RetrievalLogEntry) (context : String)
      (er : Option ExecutionLLMOutput) (counts : OrchestratorCounts),
      (orchestrator_run_loop env user_request iteration q context er counts
          fuel).2.executionCalls ≤ counts.executionCalls + fuel ∧
      (orchestrator_run_loop env user_request iteration q context er counts
          fuel).2.retrievalCalls ≤ counts.retrievalCalls + fuel := by
  intro fuel
  induction fuel with
  | zero =>
    intro iteration q context er counts
    cases er <;> simp [orchestrator_run_loop]
  | succ n ih =>
    intro iteration q context er counts
    simp only [orchestrator_run_loop]
    split
    · refine ⟨?_, ?_⟩ <;> simp
    · split
      · refine ⟨?_, ?_⟩ <;> simp
      · split
        · refine ⟨?_, ?_⟩ <;> simp
        · split
          · exact ⟨le_trans (ih _ _ _ _ _).1 (by simp; omega),
              le_trans (ih _ _ _ _ _).2 (by simp; omega)⟩
          · exact ⟨le_trans (ih _ _ _ _ _).1 (by simp; omega),
              le_trans (ih _ _ _ _ _).2 (by simp; omega)⟩

/-- An orchestrator environment whose retrieval agent always returns raw
text and whose execution agent always returns a parsed failed result. -/
def alwaysFailEnv : OrchestratorEnv :=
  { retrieve := fun _ _ => Except.ok (Sum.inr "no relevant memory")
    execute := fun _ _ _ =>
      Except.ok (Sum.inl
        { success := false
          result_summary := "could not complete"
          failure_reason := some "Ambiguous recipient"
          missing_information := some "which contact" }) }

/-- C1 counterexample: with max_iterations = 1 and a failing execution the
orchestrator makes 1 execution call but 2 retrieval-agent calls — the
initial retrieval plus a re-retrieval after the final failed iteration —
exceeding the claimed bound of k = 1 total retrieval invocations. -/
theorem orchestrator_run_retrieval_exceeds_k :
    (orchestrator_run alwaysFailEnv "Call him back" 1).2 =
      { executionCalls := 1, retrievalCalls := 2 } := by
  rfl

/-- C1 amended: for every run with max_iterations = k ≥ 1, the execution
agent is invoked at most k times and the retrieval agent at most k + 1
times (one initial retrieval plus one re-retrieval after each failed
execution, including the final failed iteration). -/
theorem orchestrator_run_agent_call_bounds (env : OrchestratorEnv)
    (user_request : String) (k : Nat) (_hk : 1 ≤ k) :
    (orchestrator_run env user_request k).2.executionCalls ≤ k ∧
    (orchestrator_run env user_request k).2.retrievalCalls ≤ k + 1 := by
  unfold orchestrator_run
  cases h0 : env.retrieve 0 user_request with
  | error e => simp
  | ok raw =>
    cases raw with
    | inl o =>
      have h := orchestrator_run_loop_counts_le env user_request k 0
        o.retrieval_log o.context_summary none ⟨0, 1⟩
      exact ⟨le_trans h.1 (by simp), le_trans h.2 (by simp; omega)⟩
    | inr t =>
      have h := orchestrator_run_loop_counts_le env user_request k 0 [] t none
        ⟨0, 1⟩
      exact ⟨le_trans h.1 (by simp), le_trans h.2 (by simp; omega)⟩

/-- C1 witness: the amended bounds at the default max_iterations = 3 with a
concrete always-failing environment. -/
theorem orchestrator_run_agent_call_bounds_witness :
    (orchestrator_run alwaysFailEnv "Check my battery level" 3).2.executionCalls ≤ 3 ∧
    (orchestrator_run alwaysFailEnv "Check my battery level" 3).2.retrievalCalls ≤ 4 :=
  orchestrator_run_agent_call_bounds alwaysFailEnv "Check my battery level" 3
    (by decide)

/-- C10: with max_iterations = 0 the orchestrator performs exactly the one
initial retrieval, never invokes the execution agent, and the final
`return execution_result` raises UnboundLocalError because the loop body
never assigned the local. -/
theorem orchestrator_run_zero_iterations_unbound_local
    (env : OrchestratorEnv) (user_request : String)
    (raw : MemoryRetrievalLLMOutput ⊕ String)
    (h : env.retrieve 0 user_request = Except.ok raw) :
    orchestrator_run env user_request 0 =
      (Except.error RunError.unboundLocalError,
        { executionCalls := 0, retrievalCalls := 1 }) := by
  unfold orchestrator_run
  rw [h]
  cases raw <;> rfl

/-- C10 witness: the zero-iteration run at a concrete environment. -/
theorem orchestrator_run_zero_iterations_witness :
    orchestrator_run alwaysFailEnv "Check my battery level" 0 =
      (Except.error RunError.unboundLocalError,
        { executionCalls := 0, retrievalCalls := 1 }) :=
  orchestrator_run_zero_iterations_unbound_local alwaysFailEnv
    "Check my battery level" (Sum.inr "no relevant memory") rfl

/-! ## C7: max_turns exhaustion and its propagation -/

/-- Helper: when the model answers every remaining turn with a known tool
call, the tool-call loop runs out of fuel and raises the RuntimeError. -/
theorem atool_call_loop_exhausts {α : Type} (env : ToolCallEnv α) :
    ∀ (fuel turn : Nat),
      (∀ t, turn ≤ t → t < turn + fuel →
        ∃ name args, env.model t = ModelResponse.functionCall name args ∧
          env.executorNames.contains name = true) →
      atool_call_loop env turn fuel = Except.error AgentError.maxTurnsExhausted := by
  intro fuel
  induction fuel with
  | zero => intro turn _; rfl
  | succ n ih =>
    intro turn h
    obtain ⟨name, args, hm, hc⟩ := h turn (Nat.le_refl _) (by omega)
    rw [atool_call_loop, hm]
    simp only [hc, if_true]
    exact ih (turn + 1) (fun t ht1 ht2 => h t (by omega) (by omega))

/-- An environment where the execution agent raises the max_turns
RuntimeError while the initial retrieval succeeds with raw text. -/
def execRaisesEnv : OrchestratorEnv :=
  { retrieve := fun _ _ => Except.ok (Sum.inr "retrieved context")
    execute := fun _ _ _ => Except.error AgentError.maxTurnsExhausted }

/-- C7 counterexample: when the execution agent raises the max_turns
RuntimeError, MainOrchestrator.run — which has no try/except — terminates
with that propagated error rather than returning an ExecutionLLMOutput
with success = false. -/
theorem orchestrator_run_propagates_agent_error :
    (orchestrator_run execRaisesEnv "Call him back" 3).1 =
      Except.error (RunError.agentError AgentError.maxTurnsExhausted) := by
  rfl

/-- C7 amended: reaching the max_turns budget with no final text response
makes atool_call raise the RuntimeError, and an error raised by the
execution agent propagates out of MainOrchestrator.run (only unstructured
text responses are wrapped as failed results). -/
theorem atool_call_max_turns_raises_and_propagates :
    (∀ (α : Type) (env : ToolCallEnv α) (max_turns : Nat),
      (∀ t, t < max_turns →
        ∃ name args, env.model t = ModelResponse.functionCall name args ∧
          env.executorNames.contains name = true) →
      atool_call env max_turns = Except.error AgentError.maxTurnsExhausted) ∧
    (∀ (env : OrchestratorEnv) (user_request context : String) (k : Nat)
        (e : AgentError),
      env.retrieve 0 user_request = Except.ok (Sum.inr context) →
      env.execute 0 user_request context = Except.error e →
      1 ≤ k →
      orchestrator_run env user_request k =
        (Except.error (RunError.agentError e),
          { executionCalls := 1, retrievalCalls := 1 })) := by
  constructor
  · intro α env max_turns h
    exact atool_call_loop_exhausts env max_turns 0 (fun t _ ht => h t (by omega))
  · intro env user_request context k e h1 h2 hk
    obtain ⟨k', rfl⟩ : ∃ k', k = k' + 1 := ⟨k - 1, by omega⟩
    unfold orchestrator_run
    rw [h1]
    simp only [orchestrator_run_loop]
    rw [h2]

/-- A tool-call environment whose model calls the declared execute_command
tool on every turn and never produces a final text response. -/
def toolOnlyModelEnv : ToolCallEnv ExecutionLLMOutput :=
  { model := fun _ =>
      ModelResponse.functionCall "execute_command" "enriched_command=check battery"
    executorNames := ["execute_command"]
    parseResponse := none }

/-- C7 witness: a model that requests the known execute_command tool on
every turn exhausts a 5-turn budget, and the propagated error at a
concrete orchestrator environment. -/
theorem atool_call_max_turns_witness :
    atool_call toolOnlyModelEnv 5 = Except.error AgentError.maxTurnsExhausted ∧
    orchestrator_run execRaisesEnv "Message Sarah about dinner" 3 =
      (Except.error (RunError.agentError AgentError.maxTurnsExhausted),
        { executionCalls := 1, retrievalCalls := 1 }) :=
  ⟨atool_call_max_turns_raises_and_propagates.1 ExecutionLLMOutput
      toolOnlyModelEnv 5
      (fun t _ => ⟨"execute_command", "enriched_command=check battery", rfl,
        by decide⟩),
    atool_call_max_turns_raises_and_propagates.2 execRaisesEnv
      "Message Sarah about dinner" "retrieved context" 3
      AgentError.maxTurnsExhausted rfl rfl (by decide)⟩

/-! ## Cache lemmas for the retriever -/

/-- Helper: looking q up in an association list that ends with an entry
keyed q and whose prefix has no entry keyed q yields that entry's value. -/
theorem exactCacheGet_append_entry (l : List (String × List String))
    (e : String × List String) (q : String)
    (hl : ∀ x ∈ l, (x.1 == q) = false) (he : (e.1 == q) = true) :
    exactCacheGet (l ++ [e]) q = some e.2 := by
  induction l with
  | nil => simp [exactCacheGet, List.find?, he]
  | cons x xs ih =>
    have hx := hl x (List.mem_cons_self x xs)
    simp only [List.cons_append, exactCacheGet, List.find?, hx]
    exact ih (fun y hy => hl y (List.mem_cons_of_mem x hy))

/-- Helper: every entry surviving the filter on keys different from q has a
key different from q. -/
theorem mem_filter_ne_key (l : List (String × List String)) (q : String) :
    ∀ x ∈ l.filter (fun e => e.1 != q), (x.1 == q) = false := by
  intro x hx
  have hb := (List.mem_filter.mp hx).2
  simpa [bne] using hb

/-- Helper: after set_exact_cache the inserted entry is the one found for
its key (LRU eviction can only drop an entry older than the insertion). -/
theorem exactCacheGet_set_exact_cache (c : List (String × List String))
    (q : String) (v : List String) :
    exactCacheGet (set_exact_cache c q v) q = some v := by
  simp only [set_exact_cache]
  split
  · next hlen =>
    have hflen : 1 ≤ (c.filter (fun e => e.1 != q)).length := by
      simp only [exact_cache_max, List.length_append, List.length_cons,
        List.length_nil] at hlen
      omega
    rw [List.drop_append_of_le_length hflen]
    exact exactCacheGet_append_entry _ (q, v) q
      (fun x hx => mem_filter_ne_key c q x (List.mem_of_mem_drop hx))
      (by simp)
  · exact exactCacheGet_append_entry _ (q, v) q (mem_filter_ne_key c q)
      (by simp)

/-- Helper: an exact-cache hit survives move_to_end with the same value,
and the key ends up at the MRU end. -/
theorem exactCacheGet_moveToEnd (c : List (String × List String)) (q : String)
    (v : List String) (h : exactCacheGet c q = some v) :
    exactCacheGet (moveToEnd c q) q = some v ∧
      (moveToEnd c q).getLast?.map (fun e => e.1) = some q := by
  unfold exactCacheGet at h
  obtain ⟨e, hf, he2⟩ := Option.map_eq_some'.mp h
  have hkey : (e.1 == q) = true := by simpa using List.find?_some hf
  unfold moveToEnd
  rw [hf]
  constructor
  · rw [exactCacheGet_append_entry (c.filter (fun e2 => e2.1 != q)) e q
      (mem_filter_ne_key c q) hkey, he2]
  · rw [List.getLast?_concat]
    simpa using hkey

/-! ## C8: embedding-failure handling in the retriever -/

/-- C8 amended: on an embedding failure (the provider returns no vectors)
find_semantically_similar returns an empty list with no store call and an
unchanged cache (both with the cache bypassed and on an exact-cache miss),
while find_similar_person_relationships — which indexes `query_vectors[0]`
without a guard — raises an IndexError instead of returning. -/
theorem embed_failure_returns_empty_or_raises :
    (∀ (env : RetrieverEnv) (s : RetrieverState) (q : String) (limit : Nat)
        (metric : String) (dc : Bool),
      env.embed q (some "RETRIEVAL_QUERY") = [] →
      exactCacheGet s.exactCache q = none →
      (find_semantically_similar env s q limit metric dc).results = [] ∧
      (find_semantically_similar env s q limit metric dc).calls.dbCalls = 0 ∧
      (find_semantically_similar env s q limit metric dc).state = s) ∧
    (∀ (env : RetrieverEnv) (q : String) (limit : Nat),
      env.embed q none = [] →
      find_similar_person_relationships env q limit =
        Except.error PyError.indexError) := by
  constructor
  · intro env s q limit metric dc hembed hmiss
    cases dc
    · refine ⟨?_, ?_, ?_⟩ <;> simp [find_semantically_similar, hmiss, hembed]
    · refine ⟨?_, ?_, ?_⟩ <;> simp [find_semantically_similar, hembed]
  · intro env q limit hembed
    simp [find_similar_person_relationships, hembed]

/-- An embedding environment whose provider returns no vectors. -/
def noVectorsEnv : RetrieverEnv :=
  { embed := fun _ _ => []
    find_similar_texts := fun _ _ _ => []
    find_similar_relationships := fun _ _ => [] }

/-- A retriever with both caches empty. -/
def emptyRetrieverState : RetrieverState :=
  { exactCache := [], semanticCache := [] }

/-- C8 counterexample: with a failing embedding provider,
find_similar_person_relationships raises an IndexError — it does not return
an empty list. -/
theorem find_similar_person_relationships_raises_on_embed_failure :
    find_similar_person_relationships noVectorsEnv "who is my manager" 5 =
      Except.error PyError.indexError := by
  rfl

/-- C8 witness: the amended behaviour at a concrete failing environment. -/
theorem embed_failure_witness :
    (find_semantically_similar noVectorsEnv emptyRetrieverState
        "gym schedule" 5 "cosine" false).results = [] ∧
    (find_semantically_similar noVectorsEnv emptyRetrieverState
        "gym schedule" 5 "cosine" false).calls.dbCalls = 0 ∧
    (find_semantically_similar noVectorsEnv emptyRetrieverState
        "gym schedule" 5 "cosine" false).state = emptyRetrieverState ∧
    find_similar_person_relationships noVectorsEnv "my teammate" 5 =
      Except.error PyError.indexError := by
  have h := embed_failure_returns_empty_or_raises
  have h1 := h.1 noVectorsEnv emptyRetrieverState "gym schedule" 5 "cosine"
    false rfl rfl
  exact ⟨h1.1, h1.2.1, h1.2.2, h.2 noVectorsEnv "my teammate" 5 rfl⟩

/-! ## Cosine-similarity lemmas -/

/-- Helper: zipWith multiplication of a list with itself squares each
entry. -/
theorem zipWith_mul_self (a : List ℚ) :
    List.zipWith (fun x y => x * y) a a = a.map (fun x => x * x) := by
  induction a with
  | nil => rfl
  | cons x xs ih => simp [ih]

/-- Helper: the squared norm of a vector is nonnegative. -/
theorem normSq_nonneg (a : List ℚ) : 0 ≤ normSq a := by
  unfold normSq dotProduct
  rw [zipWith_mul_self]
  refine List.sum_nonneg ?_
  intro x hx
  obtain ⟨y, _, rfl⟩ := List.mem_map.mp hx
  exact mul_self_nonneg y

/-- Helper: for a positive threshold t, the rational decision procedure
agrees with the real-valued cosine similarity
`dot(a,b) / (sqrt(normSq a) * sqrt(normSq b))` computed by the source
(with similarity 0 on a zero-norm vector, per the source's guard). -/
theorem cosine_similarity_ge_iff_real (a b : List ℚ) (t : ℚ) (ht : 0 < t) :
    cosine_similarity_ge a b t = true ↔
      (t : ℝ) ≤ (dotProduct a b : ℝ) /
        (Real.sqrt ((normSq a : ℝ)) * Real.sqrt ((normSq b : ℝ))) := by
  unfold cosine_similarity_ge
  by_cases h0 : normSq a = 0 ∨ normSq b = 0
  · rw [if_pos h0]
    refine iff_of_false ?_ ?_
    · simp only [decide_eq_true_eq]
      intro hge
      exact absurd ht (not_lt.mpr hge)
    · intro hr
      have hden : Real.sqrt ((normSq a : ℝ)) * Real.sqrt ((normSq b : ℝ)) = 0 := by
        rcases h0 with h | h
        · rw [h]
          simp
        · rw [h]
          simp
      rw [hden, div_zero] at hr
      have htr : (0 : ℝ) < (t : ℝ) := by exact_mod_cast ht
      linarith
  · push_neg at h0
    obtain ⟨ha, hb⟩ := h0
    rw [if_neg (by tauto)]
    have hA : (0 : ℝ) < ((normSq a : ℝ)) := by
      exact_mod_cast lt_of_le_of_ne (normSq_nonneg a) (Ne.symm ha)
    have hB : (0 : ℝ) < ((normSq b : ℝ)) := by
      exact_mod_cast lt_of_le_of_ne (normSq_nonneg b) (Ne.symm hb)
    have hsA : 0 < Real.sqrt ((normSq a : ℝ)) := Real.sqrt_pos.mpr hA
    have hsB : 0 < Real.sqrt ((normSq b : ℝ)) := Real.sqrt_pos.mpr hB
    have hs : 0 < Real.sqrt ((normSq a : ℝ)) * Real.sqrt ((normSq b : ℝ)) :=
      mul_pos hsA hsB
    have hT : (0 : ℝ) < (t : ℝ) := by exact_mod_cast ht
    have hsq : (Real.sqrt ((normSq a : ℝ)) * Real.sqrt ((normSq b : ℝ))) ^ 2 =
        ((normSq a : ℝ)) * ((normSq b : ℝ)) := by
      rw [mul_pow, Real.sq_sqrt hA.le, Real.sq_sqrt hB.le]
    rw [le_div_iff₀ hs, Bool.and_eq_true, decide_eq_true_eq, decide_eq_true_eq]
    constructor
    · rintro ⟨hd, hsqle⟩
      have hd' : (0 : ℝ) ≤ (dotProduct a b : ℝ) := by exact_mod_cast hd
      have hsqle' : ((t : ℝ)) ^ 2 * (((normSq a : ℝ)) * ((normSq b : ℝ))) ≤
          ((dotProduct a b : ℝ)) ^ 2 := by exact_mod_cast hsqle
      have key : ((t : ℝ) *
          (Real.sqrt ((normSq a : ℝ)) * Real.sqrt ((normSq b : ℝ)))) ^ 2 ≤
          ((dotProduct a b : ℝ)) ^ 2 := by
        rw [mul_pow, hsq]
        exact hsqle'
      exact le_of_pow_le_pow_left₀ (by norm_num) hd' key
    · intro hle
      have hTs : (0 : ℝ) < (t : ℝ) *
          (Real.sqrt ((normSq a : ℝ)) * Real.sqrt ((normSq b : ℝ))) :=
        mul_pos hT hs
      have hd' : (0 : ℝ) ≤ (dotProduct a b : ℝ) := le_trans hTs.le hle
      have hsq2 : ((t : ℝ) *
          (Real.sqrt ((normSq a : ℝ)) * Real.sqrt ((normSq b : ℝ)))) ^ 2 ≤
          ((dotProduct a b : ℝ)) ^ 2 := pow_le_pow_left₀ hTs.le hle 2
      rw [mul_pow, hsq] at hsq2
      constructor
      · exact_mod_cast hd'
      · exact_mod_cast hsq2

/-! ## Semantic-cache scan lemmas -/

/-- Helper: find? skips a prefix on which the predicate is false
everywhere. -/
theorem find?_append_of_forall_false {α : Type} (p : α → Bool)
    (l1 l2 : List α) (h : ∀ x ∈ l1, p x = false) :
    (l1 ++ l2).find? p = l2.find? p := by
  induction l1 with
  | nil => rfl
  | cons x xs ih =>
    have hx := h x (List.mem_cons_self x xs)
    rw [List.cons_append, List.find?_cons_of_neg _ (by simp [hx])]
    exact ih (fun y hy => h y (List.mem_cons_of_mem x hy))

/-- Helper: a semantic-cache hit always comes from a cached entry whose
vector clears the similarity threshold against the query vector. -/
theorem find_semantic_cache_hit_sound (c : List (List ℚ × List String))
    (qv : List ℚ) (r : List String)
    (h : find_semantic_cache_hit c qv = some r) :
    ∃ cv, (cv, r) ∈ c ∧
      cosine_similarity_ge qv cv cosine_similarity_threshold = true := by
  unfold find_semantic_cache_hit at h
  obtain ⟨e, hf, he2⟩ := Option.map_eq_some'.mp h
  have hm : e ∈ c := List.mem_reverse.mp (List.mem_of_find?_eq_some hf)
  have hp : cosine_similarity_ge qv e.1 cosine_similarity_threshold = true := by
    simpa using List.find?_some hf
  refine ⟨e.1, ?_, hp⟩
  have he : (e.1, r) = e := by
    rw [← he2]
  rw [he]
  exact hm

/-- Helper: the deque is scanned newest-first — if every entry newer than a
matching entry fails the threshold, the hit is that entry's cached
results. -/
theorem find_semantic_cache_hit_newest_first (pre suf : List (List ℚ × List String))
    (cv : List ℚ) (r : List String) (qv : List ℚ)
    (hcv : cosine_similarity_ge qv cv cosine_similarity_threshold = true)
    (hsuf : ∀ e ∈ suf,
      cosine_similarity_ge qv e.1 cosine_similarity_threshold = false) :
    find_semantic_cache_hit (pre ++ (cv, r) :: suf) qv = some r := by
  unfold find_semantic_cache_hit
  rw [List.reverse_append, List.reverse_cons, List.append_assoc]
  rw [find?_append_of_forall_false _ suf.reverse _
    (fun e he => hsuf e (List.mem_reverse.mp he))]
  rw [List.singleton_append, List.find?_cons_of_pos _ (by simpa using hcv)]
  rfl

/-- Helper: an exact-cache hit short-circuits find_semantically_similar —
promote to MRU, return the cached value, no external calls. -/
theorem find_semantically_similar_exact_hit (env : RetrieverEnv)
    (s : RetrieverState) (q : String) (limit : Nat) (metric : String)
    (v : List String) (h : exactCacheGet s.exactCache q = some v) :
    find_semantically_similar env s q limit metric false =
      ⟨v, { s with exactCache := moveToEnd s.exactCache q }, ⟨[], 0⟩⟩ := by
  unfold find_semantically_similar
  rw [h]
  rfl

/-- Helper: after one call with caching enabled whose embedding step (when
reached) succeeds, the exact cache maps the query to exactly the returned
results. -/
theorem find_semantically_similar_caches_query (env : RetrieverEnv)
    (s : RetrieverState) (q : String) (limit : Nat) (metric : String)
    (h : env.embed q (some "RETRIEVAL_QUERY") ≠ []) :
    exactCacheGet
        (find_semantically_similar env s q limit metric false).state.exactCache
        q =
      some (find_semantically_similar env s q limit metric false).results := by
  cases h1 : exactCacheGet s.exactCache q with
  | some cached =>
    rw [find_semantically_similar_exact_hit env s q limit metric cached h1]
    exact (exactCacheGet_moveToEnd s.exactCache q cached h1).1
  | none =>
    unfold find_semantically_similar
    rw [h1]
    cases h2 : env.embed q (some "RETRIEVAL_QUERY") with
    | nil => exact absurd h2 h
    | cons qv rest =>
      dsimp only
      cases h3 : find_semantic_cache_hit s.semanticCache qv with
      | none =>
        exact exactCacheGet_set_exact_cache s.exactCache q _
      | some r =>
        dsimp only
        by_cases h4 : r.isEmpty
        · rw [if_pos h4]
          exact exactCacheGet_set_exact_cache s.exactCache q _
        · rw [if_neg h4]
          exact exactCacheGet_set_exact_cache s.exactCache q r

/-! ## C6: a repeated identical query is served from the exact cache -/

/-- C6: calling find_semantically_similar twice with the same query,
caching enabled and no interleaving writes (the second call starts from the
state the first one left), where the first call's embedding step succeeds:
the second call returns the first call's results, makes zero embedding
calls and zero vector-store calls, and leaves the query at the MRU end of
the exact cache. -/
theorem find_semantically_similar_idempotent_cached (env : RetrieverEnv)
    (s : RetrieverState) (q : String) (limit : Nat) (metric : String)
    (h : env.embed q (some "RETRIEVAL_QUERY") ≠ []) :
    ((find_semantically_similar env
        (find_semantically_similar env s q limit metric false).state q limit
        metric false).results =
      (find_semantically_similar env s q limit metric false).results) ∧
    (find_semantically_similar env
        (find_semantically_similar env s q limit metric false).state q limit
        metric false).calls = { embedCalls := [], dbCalls := 0 } ∧
    ((find_semantically_similar env
        (find_semantically_similar env s q limit metric false).state q limit
        metric false).state.exactCache.getLast?.map (fun e => e.1) = some q) := by
  have hc := find_semantically_similar_caches_query env s q limit metric h
  rw [find_semantically_similar_exact_hit env
    (find_semantically_similar env s q limit metric false).state q limit metric
    (find_semantically_similar env s q limit metric false).results hc]
  refine ⟨rfl, rfl, ?_⟩
  exact (exactCacheGet_moveToEnd
    (find_semantically_similar env s q limit metric false).state.exactCache q
    (find_semantically_similar env s q limit metric false).results hc).2

/-- An environment that embeds every text to the unit vector [1] and
answers store queries with one fixed observation text. -/
def unitVectorEnv : RetrieverEnv :=
  { embed := fun _ _ => [[1]]
    find_similar_texts := fun _ _ _ => ["user browses fitness reels"]
    find_similar_relationships := fun _ _ => [] }

/-- C6 witness: the idempotence at a concrete environment and the empty
starting state. -/
theorem find_semantically_similar_idempotent_witness :
    ((find_semantically_similar unitVectorEnv
        (find_semantically_similar unitVectorEnv emptyRetrieverState
          "fitness content" 5 "cosine" false).state "fitness content" 5
        "cosine" false).results =
      (find_semantically_similar unitVectorEnv emptyRetrieverState
        "fitness content" 5 "cosine" false).results) ∧
    (find_semantically_similar unitVectorEnv
        (find_semantically_similar unitVectorEnv emptyRetrieverState
          "fitness content" 5 "cosine" false).state "fitness content" 5
        "cosine" false).calls = { embedCalls := [], dbCalls := 0 } ∧
    ((find_semantically_similar unitVectorEnv
        (find_semantically_similar unitVectorEnv emptyRetrieverState
          "fitness content" 5 "cosine" false).state "fitness content" 5
        "cosine" false).state.exactCache.getLast?.map (fun e => e.1) =
      some "fitness content") :=
  find_semantically_similar_idempotent_cached unitVectorEnv
    emptyRetrieverState "fitness content" 5 "cosine" (by decide)

/-! ## C5: the semantic cache tier -/

/-- C5 amended: on an exact-cache miss with caching enabled the query is
embedded exactly once with task type RETRIEVAL_QUERY; the semantic deque is
scanned newest-first and a hit requires a cached vector of cosine
similarity ≥ 0.70 with the query vector (the rational test deciding exactly
the real-valued cosine inequality); a hit with non-empty cached results is
returned, promoted into the exact cache and skips the vector store, but a
hit whose cached results list is empty is discarded by the Python
truthiness test `if semantic_cache_result:` and the vector store is
queried. -/
theorem find_semantically_similar_semantic_tier (env : RetrieverEnv)
    (s : RetrieverState) (q : String) (limit : Nat) (metric : String)
    (qv : List ℚ) (rest : List (List ℚ))
    (hmiss : exactCacheGet s.exactCache q = none)
    (hembed : env.embed q (some "RETRIEVAL_QUERY") = qv :: rest) :
    ((find_semantically_similar env s q limit metric false).calls.embedCalls =
      [{ text := q, task_type := some "RETRIEVAL_QUERY" }]) ∧
    (∀ r, find_semantic_cache_hit s.semanticCache qv = some r →
      ∃ cv, (cv, r) ∈ s.semanticCache ∧
        cosine_similarity_ge qv cv cosine_similarity_threshold = true) ∧
    (∀ pre suf (cv : List ℚ) (r : List String),
      s.semanticCache = pre ++ (cv, r) :: suf →
      cosine_similarity_ge qv cv cosine_similarity_threshold = true →
      (∀ e ∈ suf,
        cosine_similarity_ge qv e.1 cosine_similarity_threshold = false) →
      find_semantic_cache_hit s.semanticCache qv = some r) ∧
    (∀ r, find_semantic_cache_hit s.semanticCache qv = some r → r ≠ [] →
      (find_semantically_similar env s q limit metric false).results = r ∧
      (find_semantically_similar env s q limit metric false).calls.dbCalls = 0 ∧
      exactCacheGet
          (find_semantically_similar env s q limit metric false).state.exactCache
          q = some r) ∧
    (∀ r, find_semantic_cache_hit s.semanticCache qv = some r → r = [] →
      (find_semantically_similar env s q limit metric false).calls.dbCalls = 1 ∧
      (find_semantically_similar env s q limit metric false).results =
        env.find_similar_texts qv limit metric) ∧
    (∀ v w : List ℚ,
      cosine_similarity_ge v w cosine_similarity_threshold = true ↔
        ((cosine_similarity_threshold : ℝ)) ≤ (dotProduct v w : ℝ) /
          (Real.sqrt ((normSq v : ℝ)) * Real.sqrt ((normSq w : ℝ)))) := by
  refine ⟨?_, ?_, ?_, ?_, ?_, ?_⟩
  · unfold find_semantically_similar
    rw [hmiss, hembed]
    dsimp only
    cases h3 : find_semantic_cache_hit s.semanticCache qv with
    | none => rfl
    | some r =>
      dsimp only
      by_cases h4 : r.isEmpty
      · rw [if_pos h4]
        rfl
      · rw [if_neg h4]
        rfl
  · intro r hhit
    exact find_semantic_cache_hit_sound s.semanticCache qv r hhit
  · intro pre suf cv r hsplit hcv hsuf
    rw [hsplit]
    exact find_semantic_cache_hit_newest_first pre suf cv r qv hcv hsuf
  · intro r hhit hne
    have h4 : r.isEmpty = false := by
      cases r with
      | nil => exact absurd rfl hne
      | cons a l => rfl
    unfold find_semantically_similar
    rw [hmiss, hembed]
    dsimp only
    rw [hhit]
    dsimp only
    rw [h4]
    exact ⟨rfl, rfl, exactCacheGet_set_exact_cache s.exactCache q r⟩
  · intro r hhit hre
    subst hre
    unfold find_semantically_similar
    rw [hmiss, hembed]
    dsimp only
    rw [hhit]
    dsimp only
    exact ⟨rfl, rfl⟩
  · intro v w
    exact cosine_similarity_ge_iff_real v w cosine_similarity_threshold
      (by norm_num [cosine_similarity_threshold])

/-- A semantic cache holding one entry whose vector matches every query
vector but whose cached results are non-empty. -/
def oneEntryCacheState : RetrieverState :=
  { exactCache := [], semanticCache := [([1], ["cached fitness note"])] }

/-- C5 witness: the amended semantic-tier behaviour at a concrete hit. -/
theorem find_semantically_similar_semantic_tier_witness :
    (find_semantically_similar unitVectorEnv oneEntryCacheState
        "fitness content" 5 "cosine" false).calls.embedCalls =
      [{ text := "fitness content", task_type := some "RETRIEVAL_QUERY" }] ∧
    (find_semantically_similar unitVectorEnv oneEntryCacheState
        "fitness content" 5 "cosine" false).results = ["cached fitness note"] ∧
    (find_semantically_similar unitVectorEnv oneEntryCacheState
        "fitness content" 5 "cosine" false).calls.dbCalls = 0 ∧
    exactCacheGet
        (find_semantically_similar unitVectorEnv oneEntryCacheState
          "fitness content" 5 "cosine" false).state.exactCache
        "fitness content" = some ["cached fitness note"] := by
  have hsim : cosine_similarity_ge [1] [1] cosine_similarity_threshold = true := by
    norm_num [cosine_similarity_ge, cosine_similarity_threshold, normSq, dotProduct]
  have hhit : find_semantic_cache_hit oneEntryCacheState.semanticCache [1] =
      some ["cached fitness note"] := by
    simp [find_semantic_cache_hit, oneEntryCacheState, hsim, List.find?]
  have h := find_semantically_similar_semantic_tier unitVectorEnv
    oneEntryCacheState "fitness content" 5 "cosine" [1] [] rfl rfl
  have h4 := h.2.2.2.1 ["cached fitness note"] hhit (by decide)
  exact ⟨h.1, h4.1, h4.2.1, h4.2.2⟩

/-- A semantic cache whose single matching entry carries empty cached
results. -/
def emptyResultsCacheState : RetrieverState :=
  { exactCache := [], semanticCache := [([1], [])] }

/-- Helper: evaluation of the path where the semantic-cache hit carries
empty cached results — the hit is discarded by the truthiness test, the
store is queried and both caches are populated. -/
theorem find_semantically_similar_empty_hit_eval (env : RetrieverEnv)
    (s : RetrieverState) (q : String) (limit : Nat) (metric : String)
    (qv : List ℚ) (rest : List (List ℚ))
    (hmiss : exactCacheGet s.exactCache q = none)
    (hembed : env.embed q (some "RETRIEVAL_QUERY") = qv :: rest)
    (hhit : find_semantic_cache_hit s.semanticCache qv = some []) :
    find_semantically_similar env s q limit metric false =
      ⟨env.find_similar_texts qv limit metric,
        ⟨set_exact_cache s.exactCache q (env.find_similar_texts qv limit metric),
          appendMax 10 s.semanticCache (qv, env.find_similar_texts qv limit metric)⟩,
        ⟨[⟨q, some "RETRIEVAL_QUERY"⟩], 1⟩⟩ := by
  unfold find_semantically_similar
  rw [hmiss, hembed]
  dsimp only
  rw [hhit]
  dsimp only
  rfl

/-- C5 counterexample: a cached vector with cosine similarity 1 ≥ 0.70
exists, yet the call still queries the vector store (and returns the
store's results, not the cached ones), because the empty cached results
list is falsy in `if semantic_cache_result:`. -/
theorem semantic_hit_with_empty_results_queries_store :
    cosine_similarity_ge [1] [1] cosine_similarity_threshold = true ∧
    (find_semantically_similar unitVectorEnv emptyResultsCacheState
        "fitness content" 5 "cosine" false).calls.dbCalls = 1 ∧
    (find_semantically_similar unitVectorEnv emptyResultsCacheState
        "fitness content" 5 "cosine" false).results =
      ["user browses fitness reels"] := by
  have hsim : cosine_similarity_ge [1] [1] cosine_similarity_threshold = true := by
    norm_num [cosine_similarity_ge, cosine_similarity_threshold, normSq, dotProduct]
  have hhit : find_semantic_cache_hit emptyResultsCacheState.semanticCache [1] =
      some [] := by
    simp [find_semantic_cache_hit, emptyResultsCacheState, hsim, List.find?]
  rw [find_semantically_similar_empty_hit_eval unitVectorEnv
    emptyResultsCacheState "fitness content" 5 "cosine" [1] [] rfl rfl hhit]
  exact ⟨hsim, rfl, rfl⟩

end PortableBrain
